import Mathlib

/-!
Verification of the Worker Process Supervisor and Request Bridge of the
Terrain-Slicer repository (the `PythonManager` class in the Electron main
process, `app/electron/main.ts`).

The embedding models:
  * JSON payloads and the transport-level error shape (`axios` errors carrying
    an optional response and an optional connection-error code);
  * `PythonManager.shouldAttemptRecovery` (the transient/fatal classifier),
    `PythonManager.normalizeError`, `PythonManager.waitForReady`,
    `PythonManager.spawnWorker`, `PythonManager.start`, `PythonManager.stop`,
    `PythonManager.restartWorker` and `PythonManager.request` as executable
    functions over an explicit manager state, with the external world (health
    probe responses, HTTP call outcomes, process-exit timing) supplied as
    oracles;
  * the event-loop interleaving of N concurrent `start()` callers as a
    small-step machine, used to prove the single-flight start invariant.
-/

namespace TerrainSlicer

/-- JSON values, the payload shape carried by worker responses
(`axiosError.response.data` and successful response bodies). -/
inductive Json where
  | null
  | bool (b : Bool)
  | num (n : Int)
  | str (s : String)
  | arr (items : List Json)
  | obj (fields : List (String × Json))
deriving Repr

/-- Escaping performed by `JSON.stringify` on the characters that require it
in the strings this system exchanges (quote and backslash). -/
def escapeChar (c : Char) : String :=
  if c = '\"' then "\\\""
  else if c = '\\' then "\\\\"
  else String.singleton c

/-- Escaping `jsonEscape s` applies `escapeChar` to every character of `s`. -/
def jsonEscape (s : String) : String :=
  String.join (s.data.map escapeChar)

mutual

/-- Serialization as `JSON.stringify` computes it, as applied by `normalizeError` to a structured
`response.data` payload. -/
def Json.stringify : Json → String
  | .null => "null"
  | .bool true => "true"
  | .bool false => "false"
  | .num n => toString n
  | .str s => "\"" ++ jsonEscape s ++ "\""
  | .arr items => "[" ++ Json.stringifyItems items ++ "]"
  | .obj fields => "\x7b" ++ Json.stringifyFields fields ++ "\x7d"
termination_by structural j => j

/-- Comma-separated serialization of a JSON array's items. -/
def Json.stringifyItems : List Json → String
  | [] => ""
  | [x] => Json.stringify x
  | x :: xs => Json.stringify x ++ "," ++ Json.stringifyItems xs
termination_by structural xs => xs

/-- Comma-separated serialization of a JSON object's fields. -/
def Json.stringifyFields : List (String × Json) → String
  | [] => ""
  | [(k, v)] => "\"" ++ jsonEscape k ++ "\":" ++ Json.stringify v
  | (k, v) :: fs =>
      "\"" ++ jsonEscape k ++ "\":" ++ Json.stringify v ++ "," ++
        Json.stringifyFields fs
termination_by structural fs => fs

end

/-- JavaScript truthiness of a JSON value, as tested by the
`axiosError.response?.data` guard in `normalizeError`. -/
def Json.isTruthy : Json → Bool
  | .null => false
  | .bool b => b
  | .num n => n != 0
  | .str s => s != ""
  | .arr _ => true
  | .obj _ => true

/-- The part of an axios response that `PythonManager` inspects: the HTTP
status and the (possibly absent) parsed body. -/
structure AxiosResponse where
  status : Nat
  data : Option Json
deriving Repr

/-- Errors as thrown inside the Electron main process:
  * `axios response code` — an axios transport error, with its optional
    `response` (present when the worker answered with a non-2xx status) and
    its optional connection-error `code` (e.g. ECONNREFUSED);
  * `plain message` — an ordinary `Error` with a message;
  * `other value` — a thrown non-`Error` value (kept as `String(value)`). -/
inductive JsError where
  | axios (response : Option AxiosResponse) (code : Option String)
  | plain (message : String)
  | other (value : String)
deriving Repr

/-- Source constant `TRANSIENT_ERROR_CODES = new Set(['ECONNREFUSED', 'ECONNRESET', 'ETIMEDOUT'])`. -/
def TRANSIENT_ERROR_CODES : List String :=
  ["ECONNREFUSED", "ECONNRESET", "ETIMEDOUT"]

namespace PythonManager

/-- Classifier `PythonManager.shouldAttemptRecovery`: an error is worth a
restart-and-retry exactly when it is an axios error that either carries a
response with status >= 500 or carries a connection-error code from
`TRANSIENT_ERROR_CODES`. Every other error (including every non-axios error)
is not recovered from. -/
def shouldAttemptRecovery : JsError → Bool
  | .axios response code =>
      (match response with
       | some r => decide (500 ≤ r.status)
       | none => false)
      ||
      (match code with
       | some c => TRANSIENT_ERROR_CODES.contains c
       | none => false)
  | .plain _ => false
  | .other _ => false

/-- Normalization `PythonManager.normalizeError`:
  * a non-axios error is returned as is when it is an `Error`, otherwise
    wrapped as `new Error(String(error))`;
  * an axios error with a truthy `response.data` becomes an `Error` whose
    message is the data itself when it is a string, and `JSON.stringify` of
    the data otherwise;
  * an axios error without usable response data but with a transient
    connection code becomes the fixed unavailability message;
  * any other axios error is returned unchanged. -/
def normalizeError : JsError → JsError
  | .plain message => .plain message
  | .other value => .plain value
  | .axios response code =>
      match (response.bind AxiosResponse.data).filter Json.isTruthy with
      | some (.str s) => .plain s
      | some d => .plain (Json.stringify d)
      | none =>
          if (match code with
              | some c => TRANSIENT_ERROR_CODES.contains c
              | none => false) then
            .plain "Python worker is unavailable. Please try again."
          else .axios response code

/-- Outcome of one run of the readiness loop in `PythonManager.waitForReady`:
the final outcome, the number of health-endpoint attempts issued, and the
number of 500 ms sleeps performed. -/
structure ProbeTrace where
  outcome : Except JsError Unit
  attempts : Nat
  sleeps : Nat
deriving Repr

/-- The `for (let attempt = 0; attempt < 60; attempt += 1)` loop of
`waitForReady`: `health k` tells whether the k-th `axios.get` of the health
endpoint succeeds; a successful attempt ends the loop at once, a failed
attempt sleeps 500 ms and continues, and running out of attempts throws
`Error('Python worker failed to start')`. -/
def probeLoop (health : Nat → Bool) (attempt : Nat) : Nat → ProbeTrace
  | 0 => ⟨.error (.plain "Python worker failed to start"), 0, 0⟩
  | fuel + 1 =>
      if health attempt then ⟨.ok (), 1, 0⟩
      else
        let t := probeLoop health (attempt + 1) fuel
        ⟨t.outcome, t.attempts + 1, t.sleeps + 1⟩

/-- Probe `PythonManager.waitForReady`: up to 60 attempts starting at attempt 0. -/
def waitForReady (health : Nat → Bool) : ProbeTrace :=
  probeLoop health 0 60

/-- The manager's mutable fields as seen by one sequential caller: the
`ready` flag, the `process` handle (a pid when a child process handle is
held) and a ghost counter of how many times `spawn` has been invoked.
`startPromise` is omitted here: in a sequential run it is non-null only for
the duration of a single `start()` call (the finally-handler clears it as
soon as the operation settles, and `restartWorker`'s explicit nulling is
then redundant), so it is observationally invisible; it is modeled
explicitly in the concurrent machine below. -/
structure SeqState where
  ready : Bool
  process : Option Nat
  spawnCount : Nat
deriving Repr, DecidableEq

/-- The state a fresh `PythonManager` starts in: not ready, no process. -/
def SeqState.idle : SeqState := ⟨false, none, 0⟩

/-- Result of `spawnWorker`/`start`: the manager state afterwards, the
outcome of the awaited promise, and whether the readiness probe ran. -/
structure StartResult where
  state : SeqState
  outcome : Except JsError Unit
  probed : Bool
deriving Repr

/-- Launcher `PythonManager.spawnWorker`: an early return when a process handle is
already held; otherwise it sets `ready = false`, spawns the child (recorded
in the ghost `spawnCount` and the `process` handle, `pid` being the fresh
handle) and awaits `waitForReady`, which sets `ready = true` on its first
successful health probe. The trailing `ensureBoundary` call swallows its own
failure (it only logs) and changes no lifecycle field, so it does not appear
in the state. -/
def spawnWorker (s : SeqState) (health : Nat → Bool) (pid : Nat) :
    StartResult :=
  match s.process with
  | some _ => ⟨s, .ok (), false⟩
  | none =>
      let s1 : SeqState :=
        { s with ready := false, process := some pid,
                 spawnCount := s.spawnCount + 1 }
      let t := waitForReady health
      match t.outcome with
      | .ok _ => ⟨{ s1 with ready := true }, .ok (), true⟩
      | .error e => ⟨s1, .error e, true⟩

/-- Startup `PythonManager.start` for a sequential caller: an immediate return when
`ready` is set; otherwise (no operation being in flight) it memoizes a fresh
`spawnWorker()` operation in `startPromise`, awaits it, and the
finally-handler clears the memo when the operation settles. -/
def start (s : SeqState) (health : Nat → Bool) (pid : Nat) : StartResult :=
  if s.ready then ⟨s, .ok (), false⟩
  else spawnWorker s health pid

/-- Timing of the environment around one `stop()` call: whether the child
already has an exit code recorded at entry, whether `proc.kill()` throws,
and after how many milliseconds the exit event fires (`none` = never). -/
structure StopEnv where
  exitCodeSet : Bool
  killThrows : Bool
  exitDelay : Option Nat
deriving Repr, DecidableEq

/-- Result of `stop()`: the state when its promise resolves and the time
(ms from entry) at which it resolves. -/
structure StopResult where
  state : SeqState
  resolveTime : Nat
deriving Repr, DecidableEq

/-- Shutdown `PythonManager.stop`: an early return when no process handle is held.
Otherwise `cleanup` (clear the handle, clear `ready`, resolve) runs at the
earliest of: immediately when the exit code is already set, immediately when
`proc.kill()` throws (the catch block calls `cleanup`), when the exit event
fires, or at the 2000 ms safety timer; `cleanup` deregisters itself so later
firings change nothing. The promise always resolves — `stop` never throws. -/
def stop (s : SeqState) (env : StopEnv) : StopResult :=
  match s.process with
  | none => ⟨s, 0⟩
  | some _ =>
      let cleaned : SeqState := { s with process := none, ready := false }
      if env.exitCodeSet then ⟨cleaned, 0⟩
      else if env.killThrows then ⟨cleaned, 0⟩
      else
        match env.exitDelay with
        | some d => ⟨cleaned, min d 2000⟩
        | none => ⟨cleaned, 2000⟩

/-- The exit handler registered in `spawnWorker` (`this.process.on('exit')`):
when the child process ends it clears `ready` and the `process` handle (and,
outside shutdown, the `startPromise` memo). -/
def onExit (s : SeqState) : SeqState :=
  { s with ready := false, process := none }

/-- Restart `PythonManager.restartWorker`: `await this.stop()`, null the
`startPromise` memo, then `await this.start()`. -/
def restartWorker (s : SeqState) (env : StopEnv) (health : Nat → Bool)
    (pid : Nat) : StartResult :=
  start (stop s env).state health pid

/-- The `if (!this.ready) await this.start();` prelude of `request`. -/
def ensureStarted (s : SeqState) (health : Nat → Bool) (pid : Nat) :
    StartResult :=
  if s.ready then ⟨s, .ok (), false⟩
  else start s health pid

/-- The environment of one `request()` call: the probe oracle and pid used
by a lazy initial `start()`, the outcome of the first `performRequest()`
round trip, and — should a restart happen — the stop timing, the probe
oracle and pid of the restart's `start()`, and the outcome of the retried
round trip. -/
structure RequestEnv where
  health1 : Nat → Bool
  pid1 : Nat
  att1 : Except JsError Json
  stopEnv : StopEnv
  healthR : Nat → Bool
  pidR : Nat
  att2 : Except JsError Json

/-- Result of one `request()` call: the manager state afterwards, the value
returned or error thrown, the number of `performRequest` round trips issued,
and the number of `restartWorker` invocations. -/
structure RequestTrace where
  state : SeqState
  result : Except JsError Json
  attempts : Nat
  restarts : Nat
deriving Repr

/-- Bridge call `PythonManager.request`: lazily start when not ready (a start failure
propagates to the caller before any round trip); then try
`performRequest()`. On failure: when `shouldAttemptRecovery` classifies the
error transient, run `restartWorker()` (whose own failure propagates raw and
suppresses the retry) and return the retried `performRequest()` outcome raw;
otherwise throw `normalizeError` of the failure. -/
def request (s : SeqState) (env : RequestEnv) : RequestTrace :=
  let started := ensureStarted s env.health1 env.pid1
  match started.outcome with
  | .error e => ⟨started.state, .error e, 0, 0⟩
  | .ok _ =>
      match env.att1 with
      | .ok v => ⟨started.state, .ok v, 1, 0⟩
      | .error e =>
          if shouldAttemptRecovery e then
            let r := restartWorker started.state env.stopEnv env.healthR
              env.pidR
            match r.outcome with
            | .error se => ⟨r.state, .error se, 1, 1⟩
            | .ok _ => ⟨r.state, env.att2, 2, 1⟩
          else ⟨started.state, .error (normalizeError e), 1, 0⟩

/-- The manager's mutable fields as shared by concurrent `start()` callers
on the event loop, including the `startPromise` memo (identified by an
operation id) and ghost counters: how many operation promises were ever
created and how many times `spawn` was invoked. -/
structure CState where
  ready : Bool
  process : Option Nat
  startPromise : Option Nat
  nextOp : Nat
  opsCreated : Nat
  spawnCount : Nat
deriving Repr, DecidableEq

/-- A fresh manager on the concurrent machine: Idle, nothing in flight. -/
def CState.idle : CState := ⟨false, none, none, 0, 0, 0⟩

/-- Where one `start()` caller stands: yet to run, suspended on
`await this.startPromise` for operation `op`, or returned with an outcome
(`true` = the start resolved successfully). -/
inductive CallerPC where
  | entry
  | awaiting (op : Nat)
  | done (ok : Bool)
deriving Repr, DecidableEq

/-- The synchronous prefix of one `start()` call, which the event loop runs
atomically from entry to the first suspension point (`await
this.startPromise`): return at once when `ready`; adopt an existing
`startPromise` when one is in flight; otherwise create a fresh operation and
run `spawnWorker`'s own synchronous prefix — the process-handle early-return
check and, when no handle is held, the `spawn` call itself — before
suspending on the new operation (whose probe is still pending). -/
def startSyncPrefix (s : CState) (pid : Nat) : CState × CallerPC :=
  if s.ready then (s, .done true)
  else
    match s.startPromise with
    | some op => (s, .awaiting op)
    | none =>
        let op := s.nextOp
        let s1 : CState :=
          { s with startPromise := some op, nextOp := s.nextOp + 1,
                   opsCreated := s.opsCreated + 1 }
        match s1.process with
        | some _ => (s1, .awaiting op)
        | none =>
            ({ s1 with ready := false, process := some pid,
                       spawnCount := s1.spawnCount + 1 }, .awaiting op)

/-- One scheduling event: caller `i`, if still at entry, runs its `start()`
synchronous prefix against the shared state. -/
def callEvent (pid : Nat) (i : Fin n)
    (st : CState × (Fin n → CallerPC)) : CState × (Fin n → CallerPC) :=
  match st.2 i with
  | .entry =>
      let r := startSyncPrefix st.1 pid
      (r.1, Function.update st.2 i r.2)
  | _ => st

/-- Run the `start()` synchronous prefixes of the callers listed in `order`,
in that order. -/
def runCalls (pid : Nat) (order : List (Fin n))
    (st : CState × (Fin n → CallerPC)) : CState × (Fin n → CallerPC) :=
  order.foldl (fun st i => callEvent pid i st) st

/-- The in-flight start operation settles with outcome `ok` (`waitForReady`
set `ready` on success; on failure `ready` stays false): the
finally-handler clears `startPromise`, and every caller suspended on the
operation resumes with that same outcome. -/
def resolveOp (ok : Bool) (st : CState × (Fin n → CallerPC)) :
    CState × (Fin n → CallerPC) :=
  match st.1.startPromise with
  | none => st
  | some op =>
      ({ st.1 with startPromise := none, ready := ok },
       fun i =>
         match st.2 i with
         | .awaiting o => if o = op then .done ok else .awaiting o
         | pc => pc)

/-- The C1 scenario: from the Idle state, the `start()` synchronous prefixes
of the callers in `order` all run (in that order) before the in-flight
operation settles with outcome `b`. -/
def singleFlightRun (n : Nat) (pid : Nat) (b : Bool)
    (order : List (Fin n)) : CState × (Fin n → CallerPC) :=
  resolveOp b (runCalls pid order (CState.idle, fun _ => CallerPC.entry))

/-! ### Helper lemmas -/

/-- The readiness loop never issues more attempts than it has fuel for. -/
theorem probeLoop_attempts_le (health : Nat → Bool) (a f : Nat) :
    (probeLoop health a f).attempts ≤ f := by
  induction f generalizing a with
  | zero => simp [probeLoop]
  | succ f ih =>
      simp only [probeLoop]
      split
      · simp
      · simpa using ih (a + 1)

/-- When every probed attempt fails, the loop exhausts its fuel, sleeps after
every failure, and throws the startup error. -/
theorem probeLoop_all_fail (health : Nat → Bool) (a f : Nat)
    (h : ∀ k, a ≤ k → k < a + f → health k = false) :
    probeLoop health a f =
      ⟨.error (.plain "Python worker failed to start"), f, f⟩ := by
  induction f generalizing a with
  | zero => simp [probeLoop]
  | succ f ih =>
      have ha : health a = false := h a (Nat.le_refl a) (by omega)
      simp only [probeLoop, ha, Bool.false_eq_true, if_false]
      rw [ih (a + 1) (fun k h1 h2 => h k (by omega) (by omega))]

/-- The loop stops at the first successful attempt, having issued one attempt
per probed index and slept after each failure. -/
theorem probeLoop_first_success (health : Nat → Bool) (a f k : Nat)
    (hak : a ≤ k) (hkf : k < a + f) (hk : health k = true)
    (hbefore : ∀ j, a ≤ j → j < k → health j = false) :
    probeLoop health a f = ⟨.ok (), k - a + 1, k - a⟩ := by
  induction f generalizing a with
  | zero => omega
  | succ f ih =>
      by_cases hka : k = a
      · subst hka
        simp [probeLoop, hk]
      · have ha : health a = false := hbefore a (Nat.le_refl a) (by omega)
        simp only [probeLoop, ha]
        rw [ih (a + 1) (by omega) (by omega)
          (fun j h1 h2 => hbefore j (by omega) h2)]
        have h1 : k - (a + 1) + 1 = k - a := by omega
        have h2 : k - (a + 1) + 1 + 1 = k - a + 1 := by omega
        simp [h1, h2]

/-- After any `stop()` call, the process handle is cleared. -/
theorem stop_state_process (s : SeqState) (env : StopEnv) :
    (stop s env).state.process = none := by
  unfold stop
  cases hp : s.process with
  | none => simpa using hp
  | some pid =>
      cases env.exitCodeSet <;> cases env.killThrows <;>
        cases env.exitDelay <;> simp

/-- After any `stop()` call, `ready` is cleared unless the call was a no-op
on a state that already held no process. -/
theorem stop_state_ready (s : SeqState) (env : StopEnv)
    (hp : s.process.isSome) : (stop s env).state.ready = false := by
  unfold stop
  cases hpe : s.process with
  | none => rw [hpe] at hp; simp at hp
  | some pid =>
      cases env.exitCodeSet <;> cases env.killThrows <;>
        cases env.exitDelay <;> simp

/-! ### C3 — error classification -/

/-- C3: `shouldAttemptRecovery` (the `classify` of the spec) returns true —
Transient — exactly when the axios error carries a response whose status is
server-side (>= 500) or a connection-level failure code (connection
refused, reset, or timed out); every non-axios error and every other
structured response is classified Fatal (false), and a Fatal classification
never triggers a restart inside `request`. -/
theorem recovery_classification (response : Option AxiosResponse)
    (code : Option String) (m v : String) :
    (shouldAttemptRecovery (.axios response code) = true ↔
      (∃ r, response = some r ∧ 500 ≤ r.status) ∨
      (∃ c, code = some c ∧
        (c = "ECONNREFUSED" ∨ c = "ECONNRESET" ∨ c = "ETIMEDOUT"))) ∧
    shouldAttemptRecovery (.plain m) = false ∧
    shouldAttemptRecovery (.other v) = false ∧
    (∀ (s : SeqState) (env : RequestEnv),
      s.ready = true →
      env.att1 = .error (.axios response code) →
      shouldAttemptRecovery (.axios response code) = false →
      (request s env).restarts = 0) := by
  refine ⟨?_, rfl, rfl, ?_⟩
  · constructor
    · intro h
      simp only [shouldAttemptRecovery, Bool.or_eq_true] at h
      rcases h with h | h
      · cases response with
        | none => simp at h
        | some r =>
            left
            exact ⟨r, rfl, by simpa using h⟩
      · cases code with
        | none => simp at h
        | some c =>
            right
            refine ⟨c, rfl, ?_⟩
            simpa [TRANSIENT_ERROR_CODES] using h
    · intro h
      simp only [shouldAttemptRecovery, Bool.or_eq_true]
      rcases h with ⟨r, hr, hs⟩ | ⟨c, hc, hmem⟩
      · subst hr
        left
        simpa using hs
      · subst hc
        right
        simpa [TRANSIENT_ERROR_CODES] using hmem
  · intro s env hready h1 hfatal
    simp only [request, ensureStarted, hready, if_true, h1, hfatal,
      Bool.false_eq_true, if_false]

/-! ### C4 — readiness probe -/

/-- C4: `waitForReady` issues at most 60 attempts against the health
endpoint; exhausting all 60 attempts (every probe failing) throws the
startup timeout error after 60 attempts; the first successful response (at
index k, every earlier probe failing) ends the loop after k+1 attempts and
k interleaved 500 ms waits, reporting success; and a successful probe marks
the worker ready in `spawnWorker`. -/
theorem readiness_probe_bounded (health : Nat → Bool) :
    (waitForReady health).attempts ≤ 60 ∧
    ((∀ k, k < 60 → health k = false) →
      waitForReady health =
        ⟨.error (.plain "Python worker failed to start"), 60, 60⟩) ∧
    (∀ k, k < 60 → health k = true → (∀ j, j < k → health j = false) →
      waitForReady health = ⟨.ok (), k + 1, k⟩) ∧
    (∀ (s : SeqState) (pid : Nat), s.process = none →
      (waitForReady health).outcome = .ok () →
      (spawnWorker s health pid).state.ready = true) := by
  refine ⟨probeLoop_attempts_le health 0 60, ?_, ?_, ?_⟩
  · intro h
    exact probeLoop_all_fail health 0 60 (fun k _ hk => h k (by omega))
  · intro k hk hsucc hbefore
    have := probeLoop_first_success health 0 60 k (Nat.zero_le k)
      (by omega) hsucc (fun j _ hj => hbefore j hj)
    simpa using this
  · intro s pid hp hok
    simp only [spawnWorker, hp]
    rw [hok]

/-! ### C5 — stop with a stuck process still completes -/

/-- C5: `stop()` on a live process whose exit is never confirmed within the
2-second timeout (no exit code recorded, `kill` does not throw, and the
exit event fires after 2000 ms or never) still resolves — exactly at the
2000 ms safety timer — with the process handle cleared and the ready flag
false, i.e. the state reset to Idle. -/
theorem stop_timeout_still_completes (s : SeqState) (env : StopEnv)
    (pid : Nat) (hproc : s.process = some pid)
    (hcode : env.exitCodeSet = false) (hkill : env.killThrows = false)
    (hlate : ∀ d, env.exitDelay = some d → 2000 < d) :
    (stop s env).state.process = none ∧
    (stop s env).state.ready = false ∧
    (stop s env).resolveTime = 2000 := by
  cases hd : env.exitDelay with
  | none => simp [stop, hproc, hcode, hkill, hd]
  | some d =>
      have hmin : min d 2000 = 2000 := by
        have := hlate d hd
        omega
      simp [stop, hproc, hcode, hkill, hd, hmin]

/-! ### C8 — stop is idempotent and total -/

/-- C8: `stop()` is a no-op when no process handle is held (state Idle); a
second `stop()` right after a first one is a no-op (the first always clears
the handle); and even when issuing the termination signal throws, `stop()`
still completes at once with the handle cleared — it never throws (it is a
total function of its environment). -/
theorem stop_idempotent_never_throws (s : SeqState) (env env2 : StopEnv) :
    (s.process = none → stop s env = ⟨s, 0⟩) ∧
    stop (stop s env).state env2 = ⟨(stop s env).state, 0⟩ ∧
    (env.killThrows = true → env.exitCodeSet = false →
      (stop s env).state.process = none ∧ (stop s env).resolveTime = 0) := by
  refine ⟨?_, ?_, ?_⟩
  · intro h
    unfold stop
    rw [h]
  · have hnone := stop_state_process s env
    rcases hst : stop s env with ⟨st, rt⟩
    rw [hst] at hnone
    simp only at hnone
    show stop st env2 = ⟨st, 0⟩
    unfold stop
    rw [hnone]
  · intro hkill hcode
    refine ⟨stop_state_process s env, ?_⟩
    unfold stop
    cases hp : s.process with
    | none => simp
    | some pid => simp [hkill, hcode]

/-- Calling `stop()` on a state holding a process handle always resolves in the
cleaned state: handle cleared, ready cleared, spawn count untouched. -/
theorem stop_state_eq (s : SeqState) (env : StopEnv) (pid : Nat)
    (hproc : s.process = some pid) :
    (stop s env).state = ⟨false, none, s.spawnCount⟩ := by
  unfold stop
  rw [hproc]
  cases env.exitCodeSet <;> cases env.killThrows <;>
    cases env.exitDelay <;> simp

/-- A code outside the three transient connection codes is not contained in
`TRANSIENT_ERROR_CODES`. -/
theorem contains_transient_false (c : String)
    (h : ¬(c = "ECONNREFUSED" ∨ c = "ECONNRESET" ∨ c = "ETIMEDOUT")) :
    TRANSIENT_ERROR_CODES.contains c = false := by
  push_neg at h
  simpa [TRANSIENT_ERROR_CODES] using h

/-! ### C9 — Ready state: start and request are no-ops on the lifecycle -/

/-- C9: when the worker is already Ready, `start()` returns successfully at
once with the whole state — process handle, ready flag, spawn count —
unchanged and without running the probe; and a `request()` issued in the
Ready state goes straight to the bridge round trip: with a successful round
trip it returns the payload having performed no spawn, no restart and no
state change. -/
theorem ready_state_noop (s : SeqState) (health : Nat → Bool) (pid : Nat)
    (env : RequestEnv) (v : Json) (hready : s.ready = true) :
    start s health pid = ⟨s, .ok (), false⟩ ∧
    (env.att1 = .ok v → request s env = ⟨s, .ok v, 1, 0⟩) := by
  constructor
  · simp [start, hready]
  · intro h1
    simp [request, ensureStarted, hready, h1]

/-! ### C2 — transient failure: one restart, one retry, second failure propagates -/

/-- C2: when the first round trip of `request()` fails with an error
classified transient and the ensuing restart succeeds, exactly one
`restartWorker` (a `stop()` followed by a `start()`) runs, exactly one
retry round trip is issued (two round trips in total), and the outcome of
that retry — success or its own failure — is returned to the caller as is;
in particular the original transient error reaches the caller only through
the retry's own failure. -/
theorem transient_retry_exactly_once (s : SeqState) (env : RequestEnv)
    (e : JsError)
    (hstarted : (ensureStarted s env.health1 env.pid1).outcome = .ok ())
    (h1 : env.att1 = .error e)
    (htrans : shouldAttemptRecovery e = true)
    (hrestart : (restartWorker (ensureStarted s env.health1 env.pid1).state
      env.stopEnv env.healthR env.pidR).outcome = .ok ()) :
    (request s env).restarts = 1 ∧ (request s env).attempts = 2 ∧
    (request s env).result = env.att2 := by
  unfold request
  rcases hso : ensureStarted s env.health1 env.pid1 with ⟨sst, sout, sp⟩
  rw [hso] at hstarted hrestart
  simp only at hstarted hrestart
  subst hstarted
  rcases hr : restartWorker sst env.stopEnv env.healthR env.pidR
    with ⟨rst, rout, rp⟩
  rw [hr] at hrestart
  simp only at hrestart
  subst hrestart
  simp [h1, htrans, hr]

/-! ### C10 — a failing automatic restart propagates its own error -/

/-- C10: when the first round trip fails transiently but the restart's
`start()` itself fails (the respawned worker never answers a health probe),
that startup error propagates to the `request()` caller, the retry round
trip is never issued (one round trip in total), and the original transient
error is discarded — the result is the startup error alone. -/
theorem restart_failure_propagates (s : SeqState) (env : RequestEnv)
    (e : JsError) (pid : Nat)
    (hready : s.ready = true) (hproc : s.process = some pid)
    (h1 : env.att1 = .error e)
    (htrans : shouldAttemptRecovery e = true)
    (hprobe : ∀ k, k < 60 → env.healthR k = false) :
    (request s env).result = .error (.plain "Python worker failed to start") ∧
    (request s env).attempts = 1 ∧
    (request s env).restarts = 1 := by
  have hstop : (stop s env.stopEnv).state = ⟨false, none, s.spawnCount⟩ :=
    stop_state_eq s env.stopEnv pid hproc
  have hw : waitForReady env.healthR =
      ⟨.error (.plain "Python worker failed to start"), 60, 60⟩ :=
    probeLoop_all_fail env.healthR 0 60 (fun k _ hk => hprobe k (by omega))
  have hr : restartWorker s env.stopEnv env.healthR env.pidR =
      ⟨⟨false, some env.pidR, s.spawnCount + 1⟩,
       .error (.plain "Python worker failed to start"), true⟩ := by
    unfold restartWorker
    rw [hstop]
    simp [start, spawnWorker, hw]
  simp [request, ensureStarted, hready, h1, htrans, hr]

/-! ### C7 — structured validation errors pass through without restart -/

/-- C7: a round trip failing with a client-side (status < 500) response
carrying a truthy structured (non-string) body `d` and no transient
connection code triggers no restart, leaves the manager state untouched,
and returns to the caller an ordinary error message that is exactly the
JSON serialization of `d` — the structured content unaltered, normalized
out of the transport library's error shape. -/
theorem validation_error_passthrough (s : SeqState) (env : RequestEnv)
    (st : Nat) (d : Json) (code : Option String)
    (hready : s.ready = true)
    (h1 : env.att1 = .error (.axios (some ⟨st, some d⟩) code))
    (hclient : st < 500)
    (hcode : ∀ c, code = some c →
      ¬(c = "ECONNREFUSED" ∨ c = "ECONNRESET" ∨ c = "ETIMEDOUT"))
    (htruthy : d.isTruthy = true)
    (hstruct : ∀ m, d ≠ Json.str m) :
    (request s env).restarts = 0 ∧
    (request s env).state = s ∧
    (request s env).result = .error (.plain (Json.stringify d)) := by
  have hfatal : shouldAttemptRecovery (.axios (some ⟨st, some d⟩) code)
      = false := by
    simp only [shouldAttemptRecovery, Bool.or_eq_false_iff]
    constructor
    · simp only [decide_eq_false_iff_not]
      omega
    · cases code with
      | none => rfl
      | some c => exact contains_transient_false c (hcode c rfl)
  have hnorm : normalizeError (.axios (some ⟨st, some d⟩) code)
      = .plain (Json.stringify d) := by
    cases d with
    | null => simp [Json.isTruthy] at htruthy
    | bool b =>
        have hb : b = true := by simpa [Json.isTruthy] using htruthy
        subst hb
        simp [normalizeError, Option.filter, Json.isTruthy]
    | num n =>
        have hn : n ≠ 0 := by simpa [Json.isTruthy] using htruthy
        simp [normalizeError, Option.filter, Json.isTruthy, hn]
    | str m => exact absurd rfl (hstruct m)
    | arr items => simp [normalizeError, Option.filter, Json.isTruthy]
    | obj fields => simp [normalizeError, Option.filter, Json.isTruthy]
  simp [request, ensureStarted, hready, h1, hfatal, hnorm]

/-! ### C6 — a timed-out start is retried in full by the next start() -/

/-- C6: `start()` from Idle with a worker that stays unreachable for the
whole probe budget performs exactly one spawn and one probe run and fails
with the startup timeout error — no automatic startup retry happens inside
the Supervisor. Once the dead worker's exit event has reset the state to
Idle, a subsequent `start()` is no no-op: it spawns a fresh process (the
spawn count rises again) and runs the readiness probe anew. -/
theorem start_retry_after_timeout (health1 health2 : Nat → Bool)
    (pid1 pid2 : Nat)
    (hfail : ∀ k, k < 60 → health1 k = false) :
    (start SeqState.idle health1 pid1).outcome =
      .error (.plain "Python worker failed to start") ∧
    (start SeqState.idle health1 pid1).state.spawnCount = 1 ∧
    (start SeqState.idle health1 pid1).probed = true ∧
    (start (onExit (start SeqState.idle health1 pid1).state) health2
      pid2).state.spawnCount = 2 ∧
    (start (onExit (start SeqState.idle health1 pid1).state) health2
      pid2).probed = true := by
  have hw : waitForReady health1 =
      ⟨.error (.plain "Python worker failed to start"), 60, 60⟩ :=
    probeLoop_all_fail health1 0 60 (fun k _ hk => hfail k (by omega))
  have h1 : start SeqState.idle health1 pid1 =
      ⟨⟨false, some pid1, 1⟩, .error (.plain "Python worker failed to start"),
        true⟩ := by
    simp [start, SeqState.idle, spawnWorker, hw]
  rw [h1]
  have h2 : onExit (⟨false, some pid1, 1⟩ : SeqState) = ⟨false, none, 1⟩ :=
    rfl
  refine ⟨rfl, rfl, rfl, ?_, ?_⟩ <;>
    · rw [h2]
      cases houtcome : (waitForReady health2).outcome <;>
        simp [start, spawnWorker, houtcome]

/-! ### C1 — single-flight start under concurrent callers -/

/-- Invariant of the C1 scenario while the start operation is still
unsettled: either nothing has happened yet (Idle, all callers at entry), or
exactly one operation (id 0) was created, exactly one process was spawned,
and every caller is at entry or suspended on operation 0. -/
def C1Inv (pid : Nat) (st : CState × (Fin n → CallerPC)) : Prop :=
  (st.1 = CState.idle ∧ ∀ i, st.2 i = .entry) ∨
  (st.1 = ⟨false, some pid, some 0, 1, 1, 1⟩ ∧
    ∀ i, st.2 i = .entry ∨ st.2 i = .awaiting 0)

/-- One caller event preserves the C1 invariant. -/
theorem callEvent_inv (pid : Nat) (i : Fin n)
    (st : CState × (Fin n → CallerPC)) (h : C1Inv pid st) :
    C1Inv pid (callEvent pid i st) := by
  obtain ⟨s, cs⟩ := st
  rcases h with ⟨hs, hcs⟩ | ⟨hs, hcs⟩
  · have hs' : s = CState.idle := hs
    subst hs'
    have hci : cs i = CallerPC.entry := hcs i
    right
    constructor
    · simp [callEvent, hci, startSyncPrefix, CState.idle]
    · intro j
      rcases eq_or_ne j i with hj | hj
      · subst hj
        right
        simp [callEvent, hci, startSyncPrefix, CState.idle,
          Function.update_same]
      · left
        have hcj : cs j = CallerPC.entry := hcs j
        simp [callEvent, hci, Function.update_noteq hj, hcj]
  · have hs' : s = ⟨false, some pid, some 0, 1, 1, 1⟩ := hs
    subst hs'
    rcases hcsi : cs i with _ | op | ok
    · right
      constructor
      · simp [callEvent, hcsi, startSyncPrefix]
      · intro j
        rcases eq_or_ne j i with hj | hj
        · subst hj
          right
          simp [callEvent, hcsi, startSyncPrefix, Function.update_same]
        · have hcj := hcs j
          simp only at hcj
          simp [callEvent, hcsi, startSyncPrefix, Function.update_noteq hj,
            hcj]
    · right
      refine ⟨?_, fun j => ?_⟩
      · simp [callEvent, hcsi]
      · have hcj := hcs j
        simp only at hcj
        simpa [callEvent, hcsi] using hcj
    · right
      refine ⟨?_, fun j => ?_⟩
      · simp [callEvent, hcsi]
      · have hcj := hcs j
        simp only at hcj
        simpa [callEvent, hcsi] using hcj

/-- A whole schedule of caller events preserves the C1 invariant. -/
theorem runCalls_inv (pid : Nat) (order : List (Fin n))
    (st : CState × (Fin n → CallerPC)) (h : C1Inv pid st) :
    C1Inv pid (runCalls pid order st) := by
  induction order generalizing st with
  | nil => exact h
  | cons a rest ih => exact ih _ (callEvent_inv pid a st h)

/-- A caller already suspended on operation 0 is untouched by later caller
events. -/
theorem callEvent_keeps_awaiting (pid : Nat) (i j : Fin n)
    (st : CState × (Fin n → CallerPC)) (h : st.2 j = .awaiting 0) :
    (callEvent pid i st).2 j = .awaiting 0 := by
  obtain ⟨s, cs⟩ := st
  simp only at h
  rcases hcsi : cs i with _ | op | ok
  · have hij : j ≠ i := by
      intro hji
      rw [hji, hcsi] at h
      exact absurd h (by simp)
    simp only [callEvent, hcsi]
    rw [Function.update_noteq hij]
    exact h
  · simpa [callEvent, hcsi] using h
  · simpa [callEvent, hcsi] using h

/-- A caller already suspended on operation 0 stays suspended across a
whole schedule of caller events. -/
theorem runCalls_keeps_awaiting (pid : Nat) (j : Fin n)
    (order : List (Fin n)) (st : CState × (Fin n → CallerPC))
    (h : st.2 j = .awaiting 0) :
    (runCalls pid order st).2 j = .awaiting 0 := by
  induction order generalizing st with
  | nil => exact h
  | cons a rest ih => exact ih _ (callEvent_keeps_awaiting pid a j st h)

/-- Under the invariant, a caller's own event leaves it suspended on
operation 0. -/
theorem callEvent_self_awaiting (pid : Nat) (i : Fin n)
    (st : CState × (Fin n → CallerPC)) (h : C1Inv pid st) :
    (callEvent pid i st).2 i = .awaiting 0 := by
  obtain ⟨s, cs⟩ := st
  rcases h with ⟨hs, hcs⟩ | ⟨hs, hcs⟩
  · have hs' : s = CState.idle := hs
    subst hs'
    have hci : cs i = CallerPC.entry := hcs i
    simp [callEvent, hci, startSyncPrefix, CState.idle,
      Function.update_same]
  · have hs' : s = ⟨false, some pid, some 0, 1, 1, 1⟩ := hs
    subst hs'
    have hci := hcs i
    simp only at hci
    rcases hci with hci | hci <;>
      simp [callEvent, hci, startSyncPrefix, Function.update_same]

/-- Every caller scheduled at least once ends the call phase suspended on
operation 0. -/
theorem runCalls_mem_awaiting (pid : Nat) (order : List (Fin n))
    (st : CState × (Fin n → CallerPC)) (h : C1Inv pid st) (i : Fin n)
    (hi : i ∈ order) :
    (runCalls pid order st).2 i = .awaiting 0 := by
  induction order generalizing st with
  | nil => simp at hi
  | cons a rest ih =>
      rcases List.mem_cons.mp hi with hia | hirest
      · subst hia
        exact runCalls_keeps_awaiting pid i rest _
          (callEvent_self_awaiting pid i st h)
      · exact ih _ (callEvent_inv pid a st h) hirest

/-- C1: from Idle, for any number n >= 1 of concurrent `start()` callers,
any order in which the event loop runs all their synchronous prefixes
before the shared operation settles, and either outcome b of that
operation: exactly one worker process is spawned, at any point of the
schedule at most one StartOperation has ever been created (and exactly one
by the end), and when the operation settles every one of the n callers
resolves with that same outcome b, the memoized operation being cleared. -/
theorem single_flight_start (n pid : Nat) (b : Bool) (order : List (Fin n))
    (hn : 0 < n) (hcover : ∀ i : Fin n, i ∈ order) :
    (singleFlightRun n pid b order).1.spawnCount = 1 ∧
    (singleFlightRun n pid b order).1.opsCreated = 1 ∧
    (singleFlightRun n pid b order).1.startPromise = none ∧
    (singleFlightRun n pid b order).1.ready = b ∧
    (∀ i, (singleFlightRun n pid b order).2 i = .done b) ∧
    (∀ pre : List (Fin n),
      (runCalls pid pre (CState.idle, fun _ => CallerPC.entry)).1.opsCreated
        ≤ 1) := by
  have hinv0 : C1Inv pid ((CState.idle, fun _ => CallerPC.entry) :
      CState × (Fin n → CallerPC)) :=
    Or.inl ⟨rfl, fun _ => rfl⟩
  have hinv := runCalls_inv pid order _ hinv0
  have hall : ∀ i, (runCalls pid order
      ((CState.idle, fun _ => CallerPC.entry) :
        CState × (Fin n → CallerPC))).2 i = .awaiting 0 :=
    fun i => runCalls_mem_awaiting pid order _ hinv0 i (hcover i)
  rcases h1 : runCalls pid order
      ((CState.idle, fun _ => CallerPC.entry) :
        CState × (Fin n → CallerPC)) with ⟨s1, cs1⟩
  rw [h1] at hinv hall
  simp only at hall
  rcases hinv with ⟨hs, hcs⟩ | ⟨hs, hcs⟩
  · exfalso
    have h0 := hall ⟨0, hn⟩
    have he := hcs ⟨0, hn⟩
    simp only at he
    rw [he] at h0
    exact absurd h0 (by simp)
  · simp only at hs
    subst hs
    refine ⟨?_, ?_, ?_, ?_, ?_, ?_⟩
    · simp only [singleFlightRun, h1]
      rfl
    · simp only [singleFlightRun, h1]
      rfl
    · simp only [singleFlightRun, h1]
      rfl
    · simp only [singleFlightRun, h1]
      rfl
    · intro i
      simp only [singleFlightRun, h1]
      simp [resolveOp, hall i]
    · intro pre
      rcases runCalls_inv pid pre _ hinv0 with ⟨hp, _⟩ | ⟨hp, _⟩
      · have h2 : (runCalls pid pre ((CState.idle,
            fun _ => CallerPC.entry) :
              CState × (Fin n → CallerPC))).1.opsCreated = 0 := by
          rw [hp]
          rfl
        omega
      · have h2 : (runCalls pid pre ((CState.idle,
            fun _ => CallerPC.entry) :
              CState × (Fin n → CallerPC))).1.opsCreated = 1 := by
          rw [hp]
        omega

/-! ### Witnesses: each theorem with hypotheses evaluated at a concrete input -/

/-- Witness for C1 at two callers scheduled in order, a successful start. -/
theorem single_flight_start_witness :
    (0 < 2 ∧ ∀ i : Fin 2, i ∈ [(0 : Fin 2), 1]) ∧
    (singleFlightRun 2 7 true [0, 1]).1.spawnCount = 1 ∧
    (singleFlightRun 2 7 true [0, 1]).1.opsCreated = 1 ∧
    (∀ i, (singleFlightRun 2 7 true [0, 1]).2 i = .done true) :=
  ⟨⟨by decide, by decide⟩,
   (single_flight_start 2 7 true [0, 1] (by decide) (by decide)).1,
   (single_flight_start 2 7 true [0, 1] (by decide) (by decide)).2.1,
   (single_flight_start 2 7 true [0, 1] (by decide) (by decide)).2.2.2.2.1⟩

/-- Witness for C2: a 500 response, a successful restart, a successful
retry. -/
theorem transient_retry_exactly_once_witness :
    (request ⟨true, some 3, 1⟩
      ⟨fun _ => true, 9, .error (.axios (some ⟨500, none⟩) none),
       ⟨false, false, none⟩, fun _ => true, 10, .ok (.str "v")⟩).restarts
        = 1 ∧
    (request ⟨true, some 3, 1⟩
      ⟨fun _ => true, 9, .error (.axios (some ⟨500, none⟩) none),
       ⟨false, false, none⟩, fun _ => true, 10, .ok (.str "v")⟩).attempts
        = 2 ∧
    (request ⟨true, some 3, 1⟩
      ⟨fun _ => true, 9, .error (.axios (some ⟨500, none⟩) none),
       ⟨false, false, none⟩, fun _ => true, 10, .ok (.str "v")⟩).result
        = .ok (.str "v") :=
  transient_retry_exactly_once ⟨true, some 3, 1⟩
    ⟨fun _ => true, 9, .error (.axios (some ⟨500, none⟩) none),
     ⟨false, false, none⟩, fun _ => true, 10, .ok (.str "v")⟩
    (.axios (some ⟨500, none⟩) none) rfl rfl rfl rfl

/-- Witness for C3: a 503 response is Transient via the classification
theorem, and a plain 400 with a non-transient code produces no restart. -/
theorem recovery_classification_witness :
    shouldAttemptRecovery (.axios (some ⟨503, none⟩) none) = true ∧
    (request ⟨true, some 3, 1⟩
      ⟨fun _ => true, 9,
       .error (.axios (some ⟨400, none⟩) (some "ERR_BAD_REQUEST")),
       ⟨false, false, none⟩, fun _ => true, 10, .ok (.str "v")⟩).restarts
        = 0 :=
  ⟨(recovery_classification (some ⟨503, none⟩) none "m" "v").1.mpr
      (Or.inl ⟨⟨503, none⟩, rfl, by decide⟩),
   (recovery_classification (some ⟨400, none⟩) (some "ERR_BAD_REQUEST")
      "m" "v").2.2.2 ⟨true, some 3, 1⟩
      ⟨fun _ => true, 9,
       .error (.axios (some ⟨400, none⟩) (some "ERR_BAD_REQUEST")),
       ⟨false, false, none⟩, fun _ => true, 10, .ok (.str "v")⟩
      rfl rfl rfl⟩

/-- Witness for C4: success at the third attempt, and total exhaustion. -/
theorem readiness_probe_bounded_witness :
    (waitForReady (fun k => decide (k = 2))).attempts ≤ 60 ∧
    waitForReady (fun k => decide (k = 2)) = ⟨.ok (), 3, 2⟩ ∧
    waitForReady (fun _ => false) =
      ⟨.error (.plain "Python worker failed to start"), 60, 60⟩ :=
  ⟨(readiness_probe_bounded (fun k => decide (k = 2))).1,
   (readiness_probe_bounded (fun k => decide (k = 2))).2.2.1 2 (by decide)
     (by decide)
     (fun j hj => by simp only [decide_eq_false_iff_not]; omega),
   (readiness_probe_bounded (fun _ => false)).2.1 (fun _ _ => rfl)⟩

/-- Witness for C5: a live process whose exit event never fires. -/
theorem stop_timeout_still_completes_witness :
    (stop ⟨true, some 3, 1⟩ ⟨false, false, none⟩).state.process = none ∧
    (stop ⟨true, some 3, 1⟩ ⟨false, false, none⟩).state.ready = false ∧
    (stop ⟨true, some 3, 1⟩ ⟨false, false, none⟩).resolveTime = 2000 :=
  stop_timeout_still_completes ⟨true, some 3, 1⟩ ⟨false, false, none⟩ 3
    rfl rfl rfl (fun _ hd => Option.noConfusion hd)

/-- Witness for C6: a worker that never answers, then one that answers at
once. -/
theorem start_retry_after_timeout_witness :
    (start SeqState.idle (fun _ => false) 4).outcome =
      .error (.plain "Python worker failed to start") ∧
    (start SeqState.idle (fun _ => false) 4).state.spawnCount = 1 ∧
    (start (onExit (start SeqState.idle (fun _ => false) 4).state)
      (fun _ => true) 5).state.spawnCount = 2 ∧
    (start (onExit (start SeqState.idle (fun _ => false) 4).state)
      (fun _ => true) 5).probed = true :=
  ⟨(start_retry_after_timeout (fun _ => false) (fun _ => true) 4 5
      (fun _ _ => rfl)).1,
   (start_retry_after_timeout (fun _ => false) (fun _ => true) 4 5
      (fun _ _ => rfl)).2.1,
   (start_retry_after_timeout (fun _ => false) (fun _ => true) 4 5
      (fun _ _ => rfl)).2.2.2.1,
   (start_retry_after_timeout (fun _ => false) (fun _ => true) 4 5
      (fun _ _ => rfl)).2.2.2.2⟩

/-- Witness for C7: the mission-compile scenario — a 400 response carrying
`errors: [...message: Unknown token, line: 3...]` reaches the caller as
exactly that serialized structure, with no restart and no state change. -/
theorem validation_error_passthrough_witness :
    (request ⟨true, some 3, 1⟩
      ⟨fun _ => true, 9,
       .error (.axios (some ⟨400, some (.obj [("errors",
         .arr [.obj [("message", .str "Unknown token"), ("line",
           .num 3)]])])⟩) (some "ERR_BAD_REQUEST")),
       ⟨false, false, none⟩, fun _ => true, 10, .ok .null⟩).restarts = 0 ∧
    (request ⟨true, some 3, 1⟩
      ⟨fun _ => true, 9,
       .error (.axios (some ⟨400, some (.obj [("errors",
         .arr [.obj [("message", .str "Unknown token"), ("line",
           .num 3)]])])⟩) (some "ERR_BAD_REQUEST")),
       ⟨false, false, none⟩, fun _ => true, 10, .ok .null⟩).state
        = ⟨true, some 3, 1⟩ ∧
    (request ⟨true, some 3, 1⟩
      ⟨fun _ => true, 9,
       .error (.axios (some ⟨400, some (.obj [("errors",
         .arr [.obj [("message", .str "Unknown token"), ("line",
           .num 3)]])])⟩) (some "ERR_BAD_REQUEST")),
       ⟨false, false, none⟩, fun _ => true, 10, .ok .null⟩).result
        = .error (.plain
            "\x7b\"errors\":[\x7b\"message\":\"Unknown token\",\"line\":3\x7d]\x7d") :=
  validation_error_passthrough ⟨true, some 3, 1⟩
    ⟨fun _ => true, 9,
     .error (.axios (some ⟨400, some (.obj [("errors",
       .arr [.obj [("message", .str "Unknown token"), ("line",
         .num 3)]])])⟩) (some "ERR_BAD_REQUEST")),
     ⟨false, false, none⟩, fun _ => true, 10, .ok .null⟩
    400 (.obj [("errors", .arr [.obj [("message", .str "Unknown token"),
      ("line", .num 3)]])]) (some "ERR_BAD_REQUEST")
    rfl rfl (by decide)
    (fun c hc => by cases hc; decide)
    rfl (fun m h => Json.noConfusion h)

/-- Witness for C8: a no-op stop on Idle, a second stop after a first, and
a stop whose kill signal throws. -/
theorem stop_idempotent_never_throws_witness :
    stop (⟨false, none, 0⟩ : SeqState) ⟨false, false, none⟩ =
      ⟨⟨false, none, 0⟩, 0⟩ ∧
    stop (stop ⟨true, some 3, 1⟩ ⟨false, false, some 100⟩).state
      ⟨false, false, none⟩ =
      ⟨(stop ⟨true, some 3, 1⟩ ⟨false, false, some 100⟩).state, 0⟩ ∧
    ((stop ⟨true, some 3, 1⟩ ⟨false, true, none⟩).state.process = none ∧
     (stop ⟨true, some 3, 1⟩ ⟨false, true, none⟩).resolveTime = 0) :=
  ⟨(stop_idempotent_never_throws ⟨false, none, 0⟩ ⟨false, false, none⟩
      ⟨false, false, none⟩).1 rfl,
   (stop_idempotent_never_throws ⟨true, some 3, 1⟩ ⟨false, false, some 100⟩
      ⟨false, false, none⟩).2.1,
   (stop_idempotent_never_throws ⟨true, some 3, 1⟩ ⟨false, true, none⟩
      ⟨false, false, none⟩).2.2 rfl rfl⟩

/-- Witness for C9: a Ready manager, a successful round trip. -/
theorem ready_state_noop_witness :
    start (⟨true, some 3, 1⟩ : SeqState) (fun _ => true) 9 =
      ⟨⟨true, some 3, 1⟩, .ok (), false⟩ ∧
    request ⟨true, some 3, 1⟩
      ⟨fun _ => true, 9, .ok (.str "payload"), ⟨false, false, none⟩,
       fun _ => true, 10, .ok .null⟩ =
      ⟨⟨true, some 3, 1⟩, .ok (.str "payload"), 1, 0⟩ :=
  ⟨(ready_state_noop ⟨true, some 3, 1⟩ (fun _ => true) 9
      ⟨fun _ => true, 9, .ok (.str "payload"), ⟨false, false, none⟩,
       fun _ => true, 10, .ok .null⟩ (.str "payload") rfl).1,
   (ready_state_noop ⟨true, some 3, 1⟩ (fun _ => true) 9
      ⟨fun _ => true, 9, .ok (.str "payload"), ⟨false, false, none⟩,
       fun _ => true, 10, .ok .null⟩ (.str "payload") rfl).2 rfl⟩

/-- Witness for C10: a 500 response followed by a restart whose probe never
succeeds. -/
theorem restart_failure_propagates_witness :
    (request ⟨true, some 3, 1⟩
      ⟨fun _ => true, 9, .error (.axios (some ⟨500, none⟩) none),
       ⟨false, false, none⟩, fun _ => false, 10, .ok (.str "v")⟩).result
        = .error (.plain "Python worker failed to start") ∧
    (request ⟨true, some 3, 1⟩
      ⟨fun _ => true, 9, .error (.axios (some ⟨500, none⟩) none),
       ⟨false, false, none⟩, fun _ => false, 10, .ok (.str "v")⟩).attempts
        = 1 ∧
    (request ⟨true, some 3, 1⟩
      ⟨fun _ => true, 9, .error (.axios (some ⟨500, none⟩) none),
       ⟨false, false, none⟩, fun _ => false, 10, .ok (.str "v")⟩).restarts
        = 1 :=
  restart_failure_propagates ⟨true, some 3, 1⟩
    ⟨fun _ => true, 9, .error (.axios (some ⟨500, none⟩) none),
     ⟨false, false, none⟩, fun _ => false, 10, .ok (.str "v")⟩
    (.axios (some ⟨500, none⟩) none) 3 rfl rfl rfl rfl (fun _ _ => rfl)

end PythonManager

end TerrainSlicer
